import Mathlib

/-!
Verification development for the CloudQ agent orchestration engine
(cloudq/common.py, cloudq/agent.py, cloudq/slurm.py).

The Python code is shallowly embedded as pure Lean functions:

* a job manifest (a JSON dict in the code) is a Lean structure whose
  fields mirror the MANIFEST_PARAMS keys; keys whose presence is tested
  with a Python membership test are Option-valued;
* datetimes are modelled as an instant in integer seconds since the
  Unix epoch paired with a timezone-awareness flag, so
  datetime.utcfromtimestamp(0) is the naive epoch, a timedelta of 60
  seconds is the integer 60, and an order comparison between a naive
  and an aware value is the Python TypeError the code can raise; the
  strptime parse of a non-sentinel ISO string is an abstract
  parameter, since no claim depends on the instant it yields;
* the world a per-job task observes (object-storage contents, the
  backend driver, the clock, the local filesystem) is an explicit Env
  record; side effects (manifest writes, backend calls, file uploads,
  working-directory removal) are recorded in an explicit effect trace;
* Python exceptions are Except values; the try/except at the per-job
  task boundary is an explicit catch.
-/

namespace CloudQ

/-! ## common.py: constants, states, field values -/

/-- STAGEOUT_FILE in common.py. -/
def STAGEOUT_FILE : String := "output.zip"

/-- MANIFEST_FILE in common.py. -/
def MANIFEST_FILE : String := "manifest.json"

/-- CANCEL_FILE in common.py. -/
def CANCEL_FILE : String := "cancel"

/-- INITIAL_TIME in common.py: the unset-timestamp sentinel. -/
def INITIAL_TIME : String := "-"

namespace JOB_STATE

def INIT : String := "INIT"

def READY : String := "READY"

def RUN : String := "RUN"

def DELETING : String := "DELETING"

def COMPLETING : String := "COMPLETING"

def ERROR : String := "ERROR"

def DONE : String := "DONE"

def TIMEOUT : String := "TIMEOUT"

def DELETED : String := "DELETED"

end JOB_STATE

namespace SCRIPT_TYPES

def LOCAL : String := "local"

def META : String := "meta"

end SCRIPT_TYPES

/-! String primitives used by the Python code, modelled over the
character list of a string so that every definition evaluates by
kernel reduction.  Python str.split() and str.strip() treat every
whitespace character; the strings the agent applies them to (submit
options, job ids) use plain spaces, which is what these models
strip. -/

/-- Python str.lower on a string. -/
def str_lower (s : String) : String :=
  ⟨s.data.map Char.toLower⟩

/-- Python str.split(sep) with a one-character separator: split at
every occurrence, keeping empty pieces. -/
def splitCharAux (c : Char) : List Char → List Char → List String
  | [], acc => [⟨acc.reverse⟩]
  | x :: xs, acc =>
    if x = c then ⟨acc.reverse⟩ :: splitCharAux c xs []
    else splitCharAux c xs (x :: acc)

/-- Python str.split(sep) with a one-character separator. -/
def splitChar (c : Char) (s : String) : List String :=
  splitCharAux c s.data []

/-- Python str.split() with no argument: split on whitespace runs,
dropping empty pieces. -/
def splitWs (s : String) : List String :=
  (splitChar ' ' s).filter (fun piece => piece ≠ "")

/-- Python str.strip(): remove leading and trailing whitespace. -/
def str_strip (s : String) : String :=
  ⟨((s.data.dropWhile (fun ch => ch = ' ')).reverse.dropWhile (fun ch => ch = ' ')).reverse⟩

/-- Whether needle occurs as a contiguous run inside hay. -/
def listIsInfix (needle : List Char) : List Char → Bool
  | [] => needle.isEmpty
  | x :: xs => needle.isPrefixOf (x :: xs) || listIsInfix needle xs

/-- Python substring containment (the in operator on strings). -/
def strContains (hay : String) (needle : String) : Bool :=
  listIsInfix needle.data hay.data

/-- combine_s3_path in common.py. -/
def combine_s3_path (str_first : String) (str_second : String) : String :=
  str_first ++ "/" ++ str_second

/-- os.path.join of the agent cache directory and a job id (both
arguments free of trailing separators in the code). -/
def path_join (dir : String) (leaf : String) : String :=
  dir ++ "/" ++ leaf

/-! ## The job manifest

One record field per MANIFEST_PARAMS key the agent core touches.
Fields whose presence in the dict is tested with a Python membership
test (hold_jid, run_system, local_name, submit_opt_local, array_tid)
are Option-valued; the remaining fields exist in the client's manifest
template and are plain values.  The jobid field is the empty string
until a backend assigns a local job id. -/
structure Manifest where
  uuid : String
  jobid : String
  name : String
  jobscript_type : String
  hold_jid : Option String
  array_tid : Option String
  submit_to : String
  submit_opt : String
  state : String
  workdir : String
  run_system : Option String
  local_account : String
  local_group : Option String
  local_name : Option String
  submit_opt_local : Option String
  submit_command : String
  time_submit : String
  time_receive : String
  time_ready : String
  time_start : String
  time_stageout_start : String
  time_stageout_finish : String
  time_finish : String
  size_input : Int
  size_output : Int
  error_msg : String
  deriving Repr, DecidableEq

/-- is_finished_job in common.py: the four terminal states. -/
def is_finished_job (manifest : Manifest) : Bool :=
  [JOB_STATE.DONE, JOB_STATE.ERROR,
   JOB_STATE.DELETED, JOB_STATE.TIMEOUT].contains manifest.state

/-- A Python datetime value: its instant as seconds since the Unix
epoch, together with whether the value is timezone-aware.  Python 3
refuses to order-compare a naive and an aware datetime (TypeError), so
the tag decides whether a comparison against the aware clock is
defined at all. -/
structure PyDatetime where
  seconds : Int
  aware : Bool
  deriving Repr, DecidableEq

/-- iso_to_datetime in common.py.  The argument is Option-valued
because Python callers may pass None; None, the empty string and the
INITIAL_TIME sentinel are all falsy or sentinel and map to
datetime.utcfromtimestamp(0) - the epoch as a NAIVE datetime.  The
strptime parse of any other string is the abstract argument parse
(aware when the string carries a UTC offset and the first format with
percent-z matches, naive when only the offset-less fallback format
matches). -/
def iso_to_datetime (parse : String → PyDatetime) (iso_str : Option String) : PyDatetime :=
  match iso_str with
  | some s => if s ≠ "" ∧ s ≠ INITIAL_TIME then parse s else ⟨0, false⟩
  | none => ⟨0, false⟩

/-! ## The manifest store (get_manifest / put_manifest in common.py)

put_manifest serialises the manifest dict with json.dump and uploads
it to the key uuid/manifest.json; get_manifest downloads that key and
parses it with json.load (returning None when the download fails).
The store is modelled at the level of the JSON document tree: a bucket
maps object keys to JSON values, and json.dump followed by json.load
preserves the tree for string-keyed objects of strings and integers. -/

/-- A JSON leaf value a manifest field can hold. -/
inductive MValue where
  | mstr (s : String)
  | mint (n : Int)
  deriving Repr, DecidableEq

/-- A manifest as stored: a finite map from field names to values
(an association list, as a JSON object is an ordered list of pairs). -/
def ManifestDoc : Type := List (String × MValue)

/-- A JSON document tree. -/
inductive Jsonv where
  | jstr (s : String)
  | jint (n : Int)
  | jobj (fields : List (String × Jsonv))
  deriving Repr

/-- A bucket: object keys to stored JSON documents. -/
def Bucket : Type := String → Option Jsonv

/-- Serialisation of one manifest field value. -/
def encodeVal : MValue → Jsonv
  | .mstr s => .jstr s
  | .mint n => .jint n

/-- Serialisation of a manifest document (json.dump). -/
def encodeManifest (m : ManifestDoc) : Jsonv :=
  .jobj (m.map (fun kv => (kv.1, encodeVal kv.2)))

/-- Parsing of one manifest field value (json.load). -/
def decodeVal : Jsonv → Option MValue
  | .jstr s => some (.mstr s)
  | .jint n => some (.mint n)
  | .jobj _ => none

/-- Parsing of the fields of a manifest object. -/
def decodeFields : List (String × Jsonv) → Option (List (String × MValue))
  | [] => some []
  | (k, v) :: rest =>
    match decodeVal v, decodeFields rest with
    | some mv, some mrest => some ((k, mv) :: mrest)
    | _, _ => none

/-- Parsing of a manifest document. -/
def decodeManifest : Jsonv → Option ManifestDoc
  | .jobj fields => decodeFields fields
  | _ => none

/-- put_manifest in common.py: serialise and upload (overwriting) at
the key uuid/manifest.json. -/
def put_manifest (bucket : Bucket) (id_ : String) (manifest : ManifestDoc) : Bucket :=
  fun key =>
    if key = combine_s3_path id_ MANIFEST_FILE then some (encodeManifest manifest)
    else bucket key

/-- get_manifest in common.py: download the key uuid/manifest.json and
parse it; None when the object is absent. -/
def get_manifest (bucket : Bucket) (id_ : String) : Option ManifestDoc :=
  match bucket (combine_s3_path id_ MANIFEST_FILE) with
  | some doc => decodeManifest doc
  | none => none

theorem decodeVal_encodeVal (v : MValue) : decodeVal (encodeVal v) = some v := by
  cases v <;> rfl

theorem decodeFields_encoded (m : ManifestDoc) :
    decodeFields (m.map (fun kv => (kv.1, encodeVal kv.2))) = some m := by
  induction m with
  | nil => rfl
  | cons kv rest ih =>
    simp [decodeFields, decodeVal_encodeVal, ih]

/-! ## Effects and the observed world

Every externally visible action of the agent core is one Effect value;
each per-job function returns its effect trace in order. -/

/-- One externally visible action of the agent. -/
inductive Effect where
  | getManifest (id : String)
  | putManifestEff (id : String) (m : Manifest)
  | downloadFile (key : String)
  | uploadFile (key : String)
  | uploadCancelMarker (id : String) (content : String)
  | uploadLogFiles (id : String)
  | removeWorkDir (dir : String)
  | backendSubmit (m : Manifest)
  | backendPoll
  | backendCancel (force : Bool)
  | backendFetchLog (isErr : Bool)
  | uploadAgentLog
  deriving Repr, DecidableEq

/-- The manifest writes of a trace, in order. -/
def putsOf : List Effect → List (String × Manifest)
  | [] => []
  | .putManifestEff id m :: rest => (id, m) :: putsOf rest
  | _ :: rest => putsOf rest

/-- Whether an effect is a call into the backend driver. -/
def isBackendCall : Effect → Bool
  | .backendSubmit _ => true
  | .backendPoll => true
  | .backendCancel _ => true
  | .backendFetchLog _ => true
  | _ => false

/-- Whether an effect is a backend submit. -/
def isSubmit : Effect → Bool
  | .backendSubmit _ => true
  | _ => false

/-- The world one per-job task observes: configuration, the clock, the
bucket contents, the backend driver and the local filesystem.  The
now and nowIso fields are datetime.now with the UTC timezone (an AWARE
datetime, given here by its seconds) and current_time at this cycle;
parseIso is the strptime parse of a non-sentinel ISO string. -/
structure Env where
  systemName : String
  now : Int
  nowIso : String
  parseIso : String → PyDatetime
  cacheDir : String
  whoami : String
  pollJobs : List (String × String)
  bucketManifests : String → Option Manifest
  cancelMarker : String → Option String
  scriptExists : Bool
  isDir : String → Bool
  outputZipSize : String → Int
  submitResult : Manifest → Manifest
  convertResult : Manifest → Option Manifest

/-! ## agent.py helper functions -/

/-- remove_work_dir in agent.py: rmtree only when the directory
exists. -/
def remove_work_dir (env : Env) (manifest : Manifest) : List Effect :=
  if env.isDir manifest.workdir then [.removeWorkDir manifest.workdir] else []

/-- upload_logs in agent.py: nothing when the manifest has no working
directory; otherwise fetch the error log and the output log through
the backend and upload the matching stdout/stderr files.  The glob
over the local filesystem is abstracted into one uploadLogFiles
effect. -/
def upload_logs (manifest : Manifest) : List Effect :=
  if manifest.workdir = "" then []
  else [.backendFetchLog true, .backendFetchLog false, .uploadLogFiles manifest.uuid]

/-- stageout_file in agent.py: nothing when the manifest has no
working directory or it does not exist; otherwise archive the working
directory, record the archive size in size_output and upload it as
uuid/output.zip. -/
def stageout_file (env : Env) (manifest : Manifest) : Manifest × List Effect :=
  if manifest.workdir = "" ∨ ¬ env.isDir manifest.workdir then (manifest, [])
  else ({manifest with size_output := env.outputZipSize manifest.uuid},
        [.uploadFile (combine_s3_path manifest.uuid STAGEOUT_FILE)])

/-! ## stat_job (agent.py) -/

/-- The per-signal manifest update of the stat_job loop body: the new
manifest and whether the update flag was set. -/
def statUpdate (env : Env) (manifest : Manifest) (sig : String) : Manifest × Bool :=
  if sig = JOB_STATE.RUN ∧ manifest.state ≠ JOB_STATE.RUN then
    ({manifest with state := JOB_STATE.RUN, time_start := env.nowIso}, true)
  else if sig = JOB_STATE.READY ∧ manifest.state = JOB_STATE.INIT then
    ({manifest with state := JOB_STATE.READY, time_ready := env.nowIso}, true)
  else if sig = JOB_STATE.DELETING ∧ manifest.state ≠ JOB_STATE.DELETING then
    ({manifest with state := JOB_STATE.DELETING}, true)
  else if sig = JOB_STATE.COMPLETING ∧ manifest.state ≠ JOB_STATE.COMPLETING then
    ({manifest with state := JOB_STATE.COMPLETING}, true)
  else if sig = JOB_STATE.ERROR ∧ manifest.state ≠ JOB_STATE.ERROR then
    ({manifest with state := JOB_STATE.ERROR, time_finish := env.nowIso}, true)
  else if sig = JOB_STATE.DELETED ∧ manifest.state ≠ JOB_STATE.DELETED then
    ({manifest with state := JOB_STATE.DELETED, time_finish := env.nowIso}, true)
  else if sig = JOB_STATE.TIMEOUT ∧ manifest.state ≠ JOB_STATE.TIMEOUT then
    ({manifest with state := JOB_STATE.TIMEOUT, time_finish := env.nowIso}, true)
  else (manifest, false)

/-- stat_job in agent.py.  The loop processes the first poll entry
whose backend job id equals the manifest's jobid and returns; when no
entry matches and the job is in RUN, READY, DELETING or COMPLETING,
the job is treated as finished: stage-out timestamps are set around
stageout_file, the state becomes DONE with the finish timestamp, the
manifest is written back, logs are uploaded and the working directory
is removed. -/
def stat_job (env : Env) (id_ : String) (manifest : Manifest) : Manifest × List Effect :=
  match env.pollJobs.find? (fun j => j.1 = manifest.jobid) with
  | some j =>
    let r := statUpdate env manifest j.2
    if r.2 then
      let cleanup :=
        if [JOB_STATE.ERROR, JOB_STATE.DELETED, JOB_STATE.TIMEOUT].contains r.1.state then
          remove_work_dir env r.1
        else []
      (r.1, Effect.backendPoll :: (Effect.putManifestEff id_ r.1 :: upload_logs r.1) ++ cleanup)
    else if manifest.state = JOB_STATE.RUN then
      (manifest, Effect.backendPoll :: upload_logs manifest)
    else (manifest, [Effect.backendPoll])
  | none =>
    if [JOB_STATE.RUN, JOB_STATE.READY, JOB_STATE.DELETING,
        JOB_STATE.COMPLETING].contains manifest.state then
      let m1 := {manifest with time_stageout_start := env.nowIso}
      let so := stageout_file env m1
      let m2 := {so.1 with time_stageout_finish := env.nowIso,
                           state := JOB_STATE.DONE, time_finish := env.nowIso}
      (m2, Effect.backendPoll :: so.2 ++ (Effect.putManifestEff id_ m2 :: upload_logs m2)
             ++ remove_work_dir env m2)
    else (manifest, [Effect.backendPoll])

/-! ## cancel_job (agent.py) -/

/-- Result of an agent step that may raise a Python exception. -/
inductive PyResult where
  | ok (m : Manifest)
  | exn (msg : String)
  deriving Repr, DecidableEq

/-- cancel_job in agent.py.  A job still in INIT is moved straight to
DELETED with the finish timestamp.  Otherwise the backend is polled;
when no polled job id contains the manifest's jobid the call returns
without action.  Otherwise the cancel marker is downloaded: a marker
with non-empty content records the cancel request time, and once the
current time passes that time plus 60 seconds a forced backend cancel
is issued and the state becomes DONE, while a younger recorded time
causes no action; an empty marker triggers a graceful backend cancel,
the state DELETING, and the request time is written into the marker.
The grace comparison sets the aware clock against the parsed marker
time: when that parsed value is naive (the sentinel dash, or content
matching only the offset-less fallback format) Python raises
TypeError at the comparison, so neither cancel branch runs.  The exn
results are the Python exceptions raised when the working directory is
gone (os.chdir), the marker object vanished (bucket.download_file), or
the naive-aware comparison is attempted. -/
def cancel_job (env : Env) (id_ : String) (manifest : Manifest) :
    PyResult × List Effect :=
  if manifest.state = JOB_STATE.INIT then
    let m := {manifest with state := JOB_STATE.DELETED, time_finish := env.nowIso}
    (.ok m, Effect.putManifestEff id_ m :: remove_work_dir env m)
  else
    let job_exists := env.pollJobs.any (fun job => strContains job.1 manifest.jobid)
    if ¬ job_exists then (.ok manifest, [Effect.backendPoll])
    else if ¬ env.isDir manifest.workdir then
      (.exn "chdir: no such working directory", [Effect.backendPoll])
    else
      match env.cancelMarker id_ with
      | none =>
        (.exn "download_file: cancel marker not found", [Effect.backendPoll])
      | some content =>
        let dl := Effect.downloadFile (combine_s3_path id_ CANCEL_FILE)
        if content.length > 0 then
          let dt := iso_to_datetime env.parseIso (some content)
          if dt.aware = false then
            (.exn "TypeError: naive and aware datetimes do not compare",
             [Effect.backendPoll, dl])
          else if env.now ≥ dt.seconds + 60 then
            let m := {manifest with state := JOB_STATE.DONE}
            (.ok m, [Effect.backendPoll, dl, Effect.backendCancel true,
                     Effect.putManifestEff id_ m])
          else (.ok manifest, [Effect.backendPoll, dl])
        else
          let m := {manifest with state := JOB_STATE.DELETING}
          (.ok m, [Effect.backendPoll, dl, Effect.backendCancel false,
                   Effect.uploadCancelMarker id_ env.nowIso,
                   Effect.putManifestEff id_ m])

/-! ## submit_job (agent.py) -/

/-- The hold-job scan of submit_job: get_manifest each comma-separated
dependency id in order; the first dependency whose manifest is present
and not finished stops the scan (submit_job then returns False); a
dependency whose manifest download fails is skipped.  Returns the
get_manifest read trace and the blocking dependency, if any. -/
def check_hold_jobs (env : Env) : List String → List Effect × Option String
  | [] => ([], none)
  | j :: rest =>
    let eff := Effect.getManifest (str_strip j)
    match env.bucketManifests (str_strip j) with
    | some hm =>
      if ¬ is_finished_job hm then ([eff], some j)
      else
        let r := check_hold_jobs env rest
        (eff :: r.1, r.2)
    | none =>
      let r := check_hold_jobs env rest
      (eff :: r.1, r.2)

/-- Outcome of the try block of submit_job: reached the backend submit
call, returned False early (meta conversion refused the job), or
raised (the raised path carries the manifest as of the exception,
after the except clause stored the message in error_msg). -/
inductive TryOutcome where
  | proceed (m : Manifest)
  | earlyFalse (m : Manifest)
  | raised (m : Manifest)
  deriving Repr, DecidableEq

/-- The try block of submit_job: stamp time_receive, claim the job by
writing run_system, record the local account and working directory,
download the script (an absent script raises), convert a meta script
through the external converter (a refusal returns False, an absent
local_name key raises), and call the backend submit. -/
def submit_try (env : Env) (id_ : String) (manifest : Manifest) :
    TryOutcome × List Effect :=
  let workdir := path_join env.cacheDir id_
  let m1 := {manifest with time_receive := env.nowIso,
                           run_system := some (str_lower env.systemName),
                           local_account := env.whoami,
                           workdir := workdir}
  if ¬ env.scriptExists then
    (.raised {m1 with error_msg := "The script file is not found: " ++ m1.name}, [])
  else
    let dl := [Effect.downloadFile (combine_s3_path id_ m1.name)]
    if m1.jobscript_type = SCRIPT_TYPES.LOCAL then
      (.proceed (env.submitResult m1), dl ++ [Effect.backendSubmit m1])
    else
      match env.convertResult m1 with
      | none => (.earlyFalse m1, dl ++ remove_work_dir env m1)
      | some m2 =>
        match m2.local_name with
        | none => (.raised {m2 with error_msg := "KeyError: local_name"}, dl)
        | some local_script =>
          (.proceed (env.submitResult m2),
           dl ++ [Effect.uploadFile (combine_s3_path id_ local_script),
                  Effect.backendSubmit m2])

/-- The code after the try block of submit_job: a manifest holding a
backend job id moves to READY with the ready timestamp; one without
moves to ERROR with the finish timestamp and the working directory
removed; either way the manifest is written back and True returned. -/
def submit_finish (env : Env) (id_ : String) (m : Manifest) (effs : List Effect) :
    Bool × Manifest × List Effect :=
  if m.jobid ≠ "" then
    let mR := {m with state := JOB_STATE.READY, time_ready := env.nowIso}
    (true, mR, effs ++ [Effect.putManifestEff id_ mR])
  else
    let mE := {m with state := JOB_STATE.ERROR, time_finish := env.nowIso}
    (true, mE, effs ++ remove_work_dir env mE ++ [Effect.putManifestEff id_ mE])

/-- submit_job in agent.py.  A LOCAL-script job destined for another
system is not processed (returns False).  Each hold dependency is then
checked; a present, unfinished dependency defers the job (returns
False, nothing written).  Otherwise the try block runs; after it, a
manifest holding a backend job id moves to READY with the ready
timestamp, and one without moves to ERROR with the finish timestamp
and the working directory removed; either way the manifest is written
back and True is returned. -/
def submit_job (env : Env) (id_ : String) (manifest : Manifest) :
    Bool × Manifest × List Effect :=
  let system_name := str_lower env.systemName
  if manifest.jobscript_type = SCRIPT_TYPES.LOCAL ∧
      str_lower manifest.submit_to ≠ system_name then
    (false, manifest, [])
  else
    let hold :=
      match manifest.hold_jid with
      | some h => if h.length > 0 then check_hold_jobs env (splitChar ',' h) else ([], none)
      | none => ([], none)
    if hold.2.isSome then (false, manifest, hold.1)
    else
      let tr := submit_try env id_ manifest
      match tr.1 with
      | .earlyFalse m => (false, m, hold.1 ++ tr.2)
      | .proceed m => submit_finish env id_ m (hold.1 ++ tr.2)
      | .raised m => submit_finish env id_ m (hold.1 ++ tr.2)

/-! ## The Slurm backend driver (slurm.py), submit side -/

/-- ERR_FILE_NAME in slurm.py. -/
def ERR_FILE_NAME : String := "slurm-%j.err"

/-- ARRAYJOB_ERR_FILE_NAME in slurm.py. -/
def ARRAYJOB_ERR_FILE_NAME : String := "slurm-%A_%a.err"

/-- Python list slice assignment cmd[1:1] = xs: insert xs at index
one. -/
def insertAtOne (xs : List String) (cmd : List String) : List String :=
  cmd.take 1 ++ xs ++ cmd.drop 1

/-- The sbatch command line built by SlurmJobManager.submit_job:
start from sbatch plus the script name, insert the local submit
options when present and non-empty, insert the array options or the
error-file option, and finally insert the client's submit options. -/
def slurm_submit_cmd (manifest : Manifest) (name : String) : List String :=
  let cmd0 := ["sbatch", name]
  let cmd1 :=
    match manifest.submit_opt_local with
    | some opt => if opt.length > 0 then insertAtOne (splitWs opt) cmd0 else cmd0
    | none => cmd0
  let cmd2 :=
    match manifest.array_tid with
    | some tid =>
      if tid.length > 0 then
        insertAtOne ["-e", ARRAYJOB_ERR_FILE_NAME] (insertAtOne ["-a", tid] cmd1)
      else insertAtOne ["-e", ERR_FILE_NAME] cmd1
    | none => insertAtOne ["-e", ERR_FILE_NAME] cmd1
  insertAtOne (splitWs manifest.submit_opt) cmd2

/-- The regular expression match re.match(PATTERN_SUBMIT_SLURM_JOB_ID_EXTRACT, out)
of slurm.py: the output must start with the literal prefix and the
capture group is the maximal run of digits after it (None when the
run is empty). -/
def extract_slurm_job_id (out : String) : Option String :=
  let pre := "Submitted batch job ".data
  if pre.isPrefixOf out.data then
    let digits := (out.data.drop pre.length).takeWhile Char.isDigit
    if digits.length > 0 then some (String.mk digits) else none
  else none

/-- The local-group extraction of SlurmJobManager.submit_job: when the
command line contains -g, the following token (if any) is stored in
local_group. -/
def slurm_store_group (cmd : List String) (manifest : Manifest) : Manifest :=
  if cmd.contains "-g" then
    let group_index := cmd.findIdx (fun tok => tok = "-g") + 1
    match cmd.get? group_index with
    | some grp => {manifest with local_group := some grp}
    | none => manifest
  else manifest

namespace SlurmJobManager

/-- SlurmJobManager.submit_job in slurm.py, with the sbatch process
output and error streams as arguments.  The script name is local_name
when present, else name; the command line is recorded in
submit_command and a -g group in local_group; a parsed job id goes
into jobid, and a parse failure stores the error stream in error_msg
and leaves jobid untouched.  The function returns in both cases - a
rejected submission is not an exception path. -/
def submit_job (sbatch_out : String) (sbatch_err : String)
    (manifest : Manifest) : Manifest :=
  let name :=
    match manifest.local_name with
    | some n => n
    | none => manifest.name
  let cmd := slurm_submit_cmd manifest name
  let m1 := {manifest with submit_command := String.intercalate " " cmd}
  let m2 := slurm_store_group cmd m1
  match extract_slurm_job_id sbatch_out with
  | some jid => {m2 with jobid := jid}
  | none => {m2 with error_msg := sbatch_err}

end SlurmJobManager

/-! ## The per-job task and the cycle (checknrun in agent.py) -/

/-- Outcome of one per-job task: its effect trace and the exception
message the task boundary caught and logged, if any. -/
structure TaskResult where
  effects : List Effect
  caught : Option String
  deriving Repr, DecidableEq

/-- The skip test of the per-job task: a manifest whose run_system key
is present, non-empty and different from this agent's configured name
belongs to another agent. -/
def other_system (env : Env) (manifest : Manifest) : Bool :=
  match manifest.run_system with
  | some rs => rs.length > 0 && rs != env.systemName
  | none => false

/-- The inner function of checknrun in agent.py, one per-job task:
read the manifest and return silently when it is absent, claimed by a
different agent, or already terminal (these early returns skip the
agent-log upload); dispatch to cancel_job when the cancel marker
exists and the job is not COMPLETING, else to submit_job when the job
is in INIT (a False from submit_job skips the status poll), and
finally to stat_job; any exception is caught at this boundary and
logged.  The normal fall-through and the catch both upload the agent
log. -/
def process_job (env : Env) (jid : String) : TaskResult :=
  let mEff := [Effect.getManifest jid]
  match env.bucketManifests jid with
  | none => ⟨mEff, none⟩
  | some manifest =>
    if other_system env manifest then ⟨mEff, none⟩
    else if is_finished_job manifest then ⟨mEff, none⟩
    else if (env.cancelMarker jid).isSome ∧ manifest.state ≠ JOB_STATE.COMPLETING then
      match cancel_job env jid manifest with
      | (.ok m, effs) =>
        let st := stat_job env jid m
        ⟨mEff ++ effs ++ st.2 ++ [Effect.uploadAgentLog], none⟩
      | (.exn msg, effs) =>
        ⟨mEff ++ effs ++ [Effect.uploadAgentLog], some msg⟩
    else if manifest.state = JOB_STATE.INIT then
      let sub := submit_job env jid manifest
      if sub.1 then
        let st := stat_job env jid sub.2.1
        ⟨mEff ++ sub.2.2 ++ st.2 ++ [Effect.uploadAgentLog], none⟩
      else ⟨mEff ++ sub.2.2 ++ [Effect.uploadAgentLog], none⟩
    else
      let st := stat_job env jid manifest
      ⟨mEff ++ st.2 ++ [Effect.uploadAgentLog], none⟩

/-- The cycle of checknrun in agent.py: one per-job task for each
discovered job id prefix. -/
def checknrun (env : Env) (jids : List String) : List TaskResult :=
  jids.map (fun jid => process_job env jid)

end CloudQ

namespace CloudQ

/-! ## General lemmas about effect traces -/

theorem putsOf_append (l1 l2 : List Effect) :
    putsOf (l1 ++ l2) = putsOf l1 ++ putsOf l2 := by
  induction l1 with
  | nil => rfl
  | cons e rest ih => cases e <;> simp [putsOf, ih]

theorem putsOf_remove_work_dir (env : Env) (m : Manifest) :
    putsOf (remove_work_dir env m) = [] := by
  unfold remove_work_dir
  split <;> rfl

theorem remove_work_dir_no_submit (env : Env) (m : Manifest) :
    ∀ e ∈ remove_work_dir env m, isSubmit e = false := by
  unfold remove_work_dir
  split <;> simp [isSubmit]

theorem putsOf_stageout (env : Env) (m : Manifest) :
    putsOf (stageout_file env m).2 = [] := by
  unfold stageout_file
  split <;> rfl

theorem putsOf_upload_logs (m : Manifest) :
    putsOf (upload_logs m) = [] := by
  unfold upload_logs
  split <;> rfl

theorem stageout_file_fst (env : Env) (m : Manifest) :
    (stageout_file env m).1 = m ∨
    (stageout_file env m).1 = {m with size_output := env.outputZipSize m.uuid} := by
  unfold stageout_file
  split <;> simp

theorem check_hold_jobs_blocks (env : Env) (l : List String)
    (hdep : ∃ d ∈ l, ∃ hm, env.bucketManifests (str_strip d) = some hm ∧
            is_finished_job hm = false) :
    (check_hold_jobs env l).2.isSome = true := by
  induction l with
  | nil => simp at hdep
  | cons j rest ih =>
    rcases hdep with ⟨d, hd, hm, hman, hfin⟩
    rcases List.mem_cons.mp hd with h | h
    · subst h
      unfold check_hold_jobs
      rw [hman]
      simp [hfin]
    · unfold check_hold_jobs
      rcases hcase : env.bucketManifests (str_strip j) with _ | hmj
      · simp [ih ⟨d, h, hm, hman, hfin⟩]
      · by_cases hfj : is_finished_job hmj
        · simp [hfj, ih ⟨d, h, hm, hman, hfin⟩]
        · simp [hfj]

theorem check_hold_jobs_reads (env : Env) (l : List String) :
    ∀ e ∈ (check_hold_jobs env l).1, ∃ d, e = Effect.getManifest d := by
  induction l with
  | nil => simp [check_hold_jobs]
  | cons j rest ih =>
    unfold check_hold_jobs
    rcases hcase : env.bucketManifests (str_strip j) with _ | hmj
    · simpa using fun e he => Or.elim he (fun h => ⟨str_strip j, h⟩) (fun h => ih e h)
    · by_cases hfj : is_finished_job hmj
      · simpa [hfj] using fun e he => Or.elim he (fun h => ⟨str_strip j, h⟩) (fun h => ih e h)
      · simp [hfj]

theorem slurm_store_group_fields (cmd : List String) (m : Manifest) :
    (slurm_store_group cmd m).jobid = m.jobid ∧
    (slurm_store_group cmd m).error_msg = m.error_msg ∧
    (slurm_store_group cmd m).workdir = m.workdir := by
  unfold slurm_store_group
  split
  · rcases h : cmd.get? (cmd.findIdx (fun tok => tok = "-g") + 1) with _ | grp <;>
      rw [List.get?_eq_getElem?] at h <;> simp [h]
  · simp

theorem submit_finish_no_jobid (env : Env) (id_ : String) (m : Manifest)
    (effs : List Effect) (hjob : m.jobid = "") :
    submit_finish env id_ m effs = (true, {m with state := JOB_STATE.ERROR, time_finish := env.nowIso}, effs ++ remove_work_dir env {m with state := JOB_STATE.ERROR, time_finish := env.nowIso} ++ [Effect.putManifestEff id_ {m with state := JOB_STATE.ERROR, time_finish := env.nowIso}]) := by
  unfold submit_finish
  simp [hjob]

end CloudQ

namespace CloudQ

/-- C9: writing a manifest document with put_manifest and reading it
back with get_manifest for the same job id yields the manifest
written, field for field; unset-timestamp sentinel fields are ordinary
string values "-" and are covered by the quantification. -/
theorem put_get_manifest_roundtrip (bucket : Bucket) (id_ : String) (m : ManifestDoc) :
    get_manifest (put_manifest bucket id_ m) id_ = some m := by
  simp [get_manifest, put_manifest, encodeManifest, decodeManifest, decodeFields_encoded]

/-- C6: a per-job task over a job whose manifest state is terminal
returns right after the manifest read: its whole effect trace is that
read, so there is no manifest write and no backend call. -/
theorem terminal_job_cycle_noop (env : Env) (jid : String) (m : Manifest)
    (hman : env.bucketManifests jid = some m)
    (hfin : is_finished_job m = true) :
    process_job env jid = ⟨[Effect.getManifest jid], none⟩ ∧
    putsOf (process_job env jid).effects = [] ∧
    ∀ e ∈ (process_job env jid).effects, isBackendCall e = false := by
  have hp : process_job env jid = ⟨[Effect.getManifest jid], none⟩ := by
    unfold process_job
    rw [hman]
    by_cases hos : other_system env m <;> simp [hos, hfin]
  refine ⟨hp, ?_, ?_⟩
  · rw [hp]; rfl
  · rw [hp]; intro e he; simp at he; subst he; rfl

/-- C7: a per-job task over a job whose run_system is present,
non-empty and different from this agent's configured name skips the
job: the trace is the manifest read only, with no manifest write and
no backend call; hence once run_system is persisted only the agent of
that name transitions the job. -/
theorem other_agents_job_skipped (env : Env) (jid : String) (m : Manifest) (rs : String)
    (hman : env.bucketManifests jid = some m)
    (hrs : m.run_system = some rs)
    (hne : 0 < rs.length)
    (hdiff : rs ≠ env.systemName) :
    process_job env jid = ⟨[Effect.getManifest jid], none⟩ ∧
    putsOf (process_job env jid).effects = [] ∧
    ∀ e ∈ (process_job env jid).effects, isBackendCall e = false := by
  have hos : other_system env m = true := by
    simp [other_system, hrs, hne, hdiff]
  have hp : process_job env jid = ⟨[Effect.getManifest jid], none⟩ := by
    unfold process_job
    rw [hman]
    simp [hos]
  refine ⟨hp, ?_, ?_⟩
  · rw [hp]; rfl
  · rw [hp]; intro e he; simp at he; subst he; rfl

/-- C1: for an already-submitted, non-terminal job that the backend
still lists, with the cancellation marker present: an empty marker
(cancel just requested) triggers exactly the graceful backend cancel
and the state DELETING; a recorded time younger than 60 seconds
triggers no cancel command at all and leaves the manifest (hence a
DELETING state) unchanged; a recorded time older than 60 seconds
triggers the forced backend cancel and the state DONE.  The recorded
times in the two timed branches are the ones this protocol itself
writes into the marker - current_time() strings carrying a UTC offset,
which parse to aware datetimes - stated as the awareness hypothesis on
the parsed marker content. -/
theorem cancel_marker_grace_window (env : Env) (id_ : String) (m : Manifest) (content : String)
    (hstate : m.state ≠ JOB_STATE.INIT)
    (hexists : env.pollJobs.any (fun job => strContains job.1 m.jobid) = true)
    (hdir : env.isDir m.workdir = true)
    (hmarker : env.cancelMarker id_ = some content) :
    (content = "" →
      (cancel_job env id_ m).1 = PyResult.ok {m with state := JOB_STATE.DELETING} ∧
      (cancel_job env id_ m).2.contains (Effect.backendCancel false) = true ∧
      (cancel_job env id_ m).2.contains (Effect.backendCancel true) = false) ∧
    (0 < content.length →
      (iso_to_datetime env.parseIso (some content)).aware = true →
      env.now < (iso_to_datetime env.parseIso (some content)).seconds + 60 →
      (cancel_job env id_ m).1 = PyResult.ok m ∧
      (∀ f, (cancel_job env id_ m).2.contains (Effect.backendCancel f) = false) ∧
      putsOf (cancel_job env id_ m).2 = []) ∧
    (0 < content.length →
      (iso_to_datetime env.parseIso (some content)).aware = true →
      (iso_to_datetime env.parseIso (some content)).seconds + 60 ≤ env.now →
      (cancel_job env id_ m).1 = PyResult.ok {m with state := JOB_STATE.DONE} ∧
      (cancel_job env id_ m).2.contains (Effect.backendCancel true) = true) := by
  unfold cancel_job
  rw [hmarker]
  refine ⟨?_, ?_, ?_⟩
  · intro hc
    subst hc
    simp [hstate, hexists, hdir]
  · intro hc ha ht
    simp [hstate, hexists, hdir, hc, ha, not_le.mpr ht, putsOf]
  · intro hc ha ht
    simp [hstate, hexists, hdir, hc, ha, ht]

/-- C10 (amended): iso_to_datetime sends None, the empty string and
the sentinel dash to the Unix epoch as a NAIVE datetime
(utcfromtimestamp); consequently, in the cancellation path, a marker
whose non-empty content equals the sentinel makes the 60-second grace
check compare the aware clock against that naive value, which raises
TypeError: the call returns exceptionally, no cancel command of
either kind is issued and nothing is written - the forced-cancel
branch is never triggered by the sentinel. -/
theorem sentinel_marker_raises_typeerror (parse : String → PyDatetime)
    (env : Env) (id_ : String) (m : Manifest)
    (hstate : m.state ≠ JOB_STATE.INIT)
    (hexists : env.pollJobs.any (fun job => strContains job.1 m.jobid) = true)
    (hdir : env.isDir m.workdir = true)
    (hmarker : env.cancelMarker id_ = some INITIAL_TIME) :
    iso_to_datetime parse none = ⟨0, false⟩ ∧
    iso_to_datetime parse (some "") = ⟨0, false⟩ ∧
    iso_to_datetime parse (some INITIAL_TIME) = ⟨0, false⟩ ∧
    (cancel_job env id_ m).1 =
      PyResult.exn "TypeError: naive and aware datetimes do not compare" ∧
    (∀ f, (cancel_job env id_ m).2.contains (Effect.backendCancel f) = false) ∧
    putsOf (cancel_job env id_ m).2 = [] := by
  have hlen : 0 < ("-" : String).length := by decide
  refine ⟨rfl, rfl, rfl, ?_, ?_, ?_⟩ <;>
  · unfold cancel_job
    rw [hmarker]
    simp [hstate, hexists, hdir, iso_to_datetime, INITIAL_TIME, hlen, putsOf]

/-- C3 (amended): for a job in RUN, READY, DELETING or COMPLETING
whose local job id the backend poll no longer lists, the very same
stat_job call stages the output out, stamps the stage-out and finish
timestamps, sets the state directly to DONE (never COMPLETING) and
writes the manifest back once. -/
theorem vanished_job_done_same_poll (env : Env) (id_ : String) (m : Manifest)
    (hstate : [JOB_STATE.RUN, JOB_STATE.READY, JOB_STATE.DELETING,
               JOB_STATE.COMPLETING].contains m.state = true)
    (hgone : env.pollJobs.find? (fun j => j.1 = m.jobid) = none) :
    (stat_job env id_ m).1.state = JOB_STATE.DONE ∧
    (stat_job env id_ m).1.time_finish = env.nowIso ∧
    (stat_job env id_ m).1.time_stageout_start = env.nowIso ∧
    (stat_job env id_ m).1.time_stageout_finish = env.nowIso ∧
    (stat_job env id_ m).1.state ≠ JOB_STATE.COMPLETING ∧
    putsOf (stat_job env id_ m).2 = [(id_, (stat_job env id_ m).1)] := by
  have hso := stageout_file_fst env {m with time_stageout_start := env.nowIso}
  unfold stat_job
  rw [hgone]
  simp only [hstate, if_true]
  rcases hso with h | h <;>
    simp [h, putsOf_append, putsOf, putsOf_remove_work_dir, putsOf_upload_logs,
          putsOf_stageout, JOB_STATE.DONE, JOB_STATE.COMPLETING]

/-- C2 (amended): a job one of whose hold dependencies has a readable
manifest in a non-terminal state is not submitted this cycle:
submit_job returns False with the manifest untouched, performs no
backend submit and writes nothing; the scan reads dependency
manifests before any submission attempt, and a dependency whose
manifest is missing is skipped rather than blocking. -/
theorem unfinished_hold_defers_submission (env : Env) (id_ : String) (m : Manifest)
    (h : String)
    (hh : m.hold_jid = some h) (hlen : 0 < h.length)
    (hdep : ∃ d ∈ splitChar ',' h, ∃ hm, env.bucketManifests (str_strip d) = some hm ∧
            is_finished_job hm = false) :
    (submit_job env id_ m).1 = false ∧
    (submit_job env id_ m).2.1 = m ∧
    (∀ e ∈ (submit_job env id_ m).2.2, isSubmit e = false) ∧
    putsOf (submit_job env id_ m).2.2 = [] := by
  have hblock := check_hold_jobs_blocks env (splitChar ',' h) hdep
  have hreads := check_hold_jobs_reads env (splitChar ',' h)
  unfold submit_job
  rw [hh]
  by_cases hlocal : m.jobscript_type = SCRIPT_TYPES.LOCAL ∧
      str_lower m.submit_to ≠ str_lower env.systemName
  · simp [hlocal, putsOf]
  · simp only [hlocal, if_false, hlen, if_true]
    simp only [hblock, if_true]
    refine ⟨trivial, trivial, ?_, ?_⟩
    · intro e he
      rcases hreads e he with ⟨d, hd⟩
      subst hd
      rfl
    · have : ∀ l : List Effect, (∀ e ∈ l, ∃ d, e = Effect.getManifest d) → putsOf l = [] := by
        intro l
        induction l with
        | nil => intro _; rfl
        | cons e rest ih =>
          intro hall
          rcases hall e (by simp) with ⟨d, hd⟩
          subst hd
          simp [putsOf, ih (fun x hx => hall x (by simp [hx]))]
      exact this _ hreads

/-- C4: a per-job task over a job still in INIT whose cancellation
marker is present (and that this agent may process) never calls the
backend submit, and its single manifest write records the state
DELETED with the finish timestamp set to the current time. -/
theorem init_cancel_goes_deleted (env : Env) (jid : String) (m : Manifest)
    (hman : env.bucketManifests jid = some m)
    (hos : other_system env m = false)
    (hstate : m.state = JOB_STATE.INIT)
    (hmarker : (env.cancelMarker jid).isSome = true)
    (hjobid : m.jobid = "")
    (hpoll : ∀ p ∈ env.pollJobs, p.1 ≠ "") :
    (∀ e ∈ (process_job env jid).effects, isSubmit e = false) ∧
    putsOf (process_job env jid).effects =
      [(jid, {m with state := JOB_STATE.DELETED, time_finish := env.nowIso})] := by
  have hfin : is_finished_job m = false := by
    simp [is_finished_job, hstate]
    decide
  have hnc : m.state ≠ JOB_STATE.COMPLETING := by
    rw [hstate]; decide
  have hfind : env.pollJobs.find? (fun j => j.1 = ({m with state := JOB_STATE.DELETED, time_finish := env.nowIso} : Manifest).jobid) = none := by
    rw [List.find?_eq_none]
    intro p hp
    simp [hjobid, hpoll p hp]
  have hcancel : cancel_job env jid m = (PyResult.ok {m with state := JOB_STATE.DELETED, time_finish := env.nowIso}, Effect.putManifestEff jid {m with state := JOB_STATE.DELETED, time_finish := env.nowIso} :: remove_work_dir env {m with state := JOB_STATE.DELETED, time_finish := env.nowIso}) := by
    unfold cancel_job
    simp [hstate]
  have hstat : stat_job env jid {m with state := JOB_STATE.DELETED, time_finish := env.nowIso} = ({m with state := JOB_STATE.DELETED, time_finish := env.nowIso}, [Effect.backendPoll]) := by
    unfold stat_job
    rw [hfind]
    simp [JOB_STATE.DELETED, JOB_STATE.RUN, JOB_STATE.READY, JOB_STATE.DELETING, JOB_STATE.COMPLETING]
  unfold process_job
  rw [hman]
  simp only [hos, Bool.false_eq_true, if_false, hfin, hmarker, hnc, ne_eq,
    not_false_iff, true_and, if_true]
  rw [hcancel]
  simp only [hstat]
  constructor
  · intro e he
    cases hd : env.isDir m.workdir
    · simp [remove_work_dir, hd] at he
      rcases he with rfl | rfl | rfl | rfl <;> rfl
    · simp [remove_work_dir, hd] at he
      rcases he with rfl | rfl | rfl | rfl | rfl <;> rfl
  · simp [putsOf, putsOf_append, putsOf_remove_work_dir]

end CloudQ

namespace CloudQ

/-- C5 -/
theorem backend_rejection_moves_to_error (env : Env) (id_ : String) (m : Manifest)
    (out err : String)
    (hsub : env.submitResult = SlurmJobManager.submit_job out err)
    (hrej : extract_slurm_job_id out = none)
    (htype : m.jobscript_type = SCRIPT_TYPES.LOCAL)
    (hto : str_lower m.submit_to = str_lower env.systemName)
    (hhold : m.hold_jid = none)
    (hjob : m.jobid = "")
    (hscript : env.scriptExists = true) :
    (∀ mf : Manifest, (SlurmJobManager.submit_job out err mf).error_msg = err ∧
        (SlurmJobManager.submit_job out err mf).jobid = mf.jobid) ∧
    (submit_job env id_ m).1 = true ∧
    (submit_job env id_ m).2.1.state = JOB_STATE.ERROR ∧
    (submit_job env id_ m).2.1.time_finish = env.nowIso ∧
    (submit_job env id_ m).2.1.error_msg = err ∧
    (submit_job env id_ m).2.1.jobid = "" ∧
    (env.isDir (path_join env.cacheDir id_) = true →
      (submit_job env id_ m).2.2.contains
        (Effect.removeWorkDir (path_join env.cacheDir id_)) = true) ∧
    putsOf (submit_job env id_ m).2.2 = [(id_, (submit_job env id_ m).2.1)] := by
  have hdriver : ∀ mf : Manifest, (SlurmJobManager.submit_job out err mf).error_msg = err ∧
      (SlurmJobManager.submit_job out err mf).jobid = mf.jobid ∧
      (SlurmJobManager.submit_job out err mf).workdir = mf.workdir := by
    intro mf
    unfold SlurmJobManager.submit_job
    rw [hrej]
    rcases slurm_store_group_fields (slurm_submit_cmd mf (match mf.local_name with | some n => n | none => mf.name)) {mf with submit_command := String.intercalate " " (slurm_submit_cmd mf (match mf.local_name with | some n => n | none => mf.name))} with ⟨h1, h2, h3⟩
    simp_all
  refine ⟨fun mf => ⟨(hdriver mf).1, (hdriver mf).2.1⟩, ?_⟩
  unfold submit_job
  rw [hhold]
  simp only [hto, ne_eq, not_true_eq_false, and_false, if_false]
  simp only [Option.isSome_none, Bool.false_eq_true, if_false]
  unfold submit_try
  simp only [hscript, Bool.true_eq_false, not_true_eq_false, if_false, htype, if_true]
  rw [hsub]
  rw [submit_finish_no_jobid env id_ _ _ (by rw [(hdriver _).2.1]; simp [hjob])]
  obtain ⟨he, hj, hw⟩ := hdriver {m with jobid := "", jobscript_type := SCRIPT_TYPES.LOCAL, time_receive := env.nowIso, run_system := some (str_lower env.systemName), local_account := env.whoami, workdir := path_join env.cacheDir id_}
  simp [he, hj, hw, hjob, remove_work_dir, putsOf_append, putsOf, putsOf_remove_work_dir]
  split <;> rfl

end CloudQ

namespace CloudQ

/-- C8 -/
theorem per_job_failure_isolated (env : Env) (pre post : List String) (jid : String) :
    checknrun env (pre ++ jid :: post) =
      checknrun env pre ++ process_job env jid :: checknrun env post ∧
    (checknrun env (pre ++ jid :: post)).length = pre.length + 1 + post.length ∧
    (∀ m msg effs, env.bucketManifests jid = some m →
      other_system env m = false → is_finished_job m = false →
      (env.cancelMarker jid).isSome = true → m.state ≠ JOB_STATE.COMPLETING →
      cancel_job env jid m = (.exn msg, effs) →
      process_job env jid =
        ⟨Effect.getManifest jid :: (effs ++ [Effect.uploadAgentLog]), some msg⟩) := by
  refine ⟨?_, ?_, ?_⟩
  · simp [checknrun]
  · simp [checknrun]
    omega
  · intro m msg effs hman hos hfin hmk hnc hcex
    unfold process_job
    rw [hman]
    simp only [hos, Bool.false_eq_true, if_false, hfin, hmk, hnc, ne_eq,
      not_false_iff, and_true, true_and, if_true]
    rw [hcex]
    rfl

end CloudQ

namespace CloudQ

/-! ## Concrete fixtures

A freshly submitted LOCAL-script job and small environments used to
exercise the theorems on closed inputs. -/

/-- Fixture: a client-created LOCAL-script manifest (template
defaults: empty jobid and run_system, sentinel timestamps). -/
def sampleManifest : Manifest :=
  { uuid := "j1", jobid := "", name := "run.sh", jobscript_type := "local",
    hold_jid := none, array_tid := none, submit_to := "sys1", submit_opt := "",
    state := "INIT", workdir := "", run_system := some "", local_account := "",
    local_group := none, local_name := none, submit_opt_local := none,
    submit_command := "", time_submit := "-", time_receive := "-",
    time_ready := "-", time_start := "-", time_stageout_start := "-",
    time_stageout_finish := "-", time_finish := "-", size_input := 0,
    size_output := 0, error_msg := "" }

/-- Fixture: the same job once running under backend job id 42. -/
def runningManifest : Manifest :=
  {sampleManifest with state := "RUN", jobid := "42", workdir := "/cache/j1"}

/-- Fixture: the same job in DELETING after a graceful cancel. -/
def deletingManifest : Manifest :=
  {sampleManifest with state := "DELETING", jobid := "42", workdir := "/cache/j1"}

/-- Fixture: the job with one hold dependency dep1. -/
def holdManifest : Manifest :=
  {sampleManifest with hold_jid := some "dep1"}

/-- Fixture: a baseline environment for the agent named sys1; the
backend accepts submissions and currently lists no jobs. -/
def sampleEnv : Env :=
  { systemName := "sys1", now := 1000000, nowIso := "2001-09-09T01:46:40+00:00",
    parseIso := (fun _ => ⟨999000, true⟩), cacheDir := "/cache", whoami := "user",
    pollJobs := [], bucketManifests := (fun _ => none),
    cancelMarker := (fun _ => none), scriptExists := true,
    isDir := (fun _ => true), outputZipSize := (fun _ => 100),
    submitResult := (fun m => {m with jobid := "42"}),
    convertResult := (fun m => some m) }

/-- Fixture: the backend lists job 42 and the cancel marker holds c. -/
def markerEnv (c : String) : Env :=
  {sampleEnv with pollJobs := [("42", "R")], cancelMarker := (fun _ => some c)}

/-- Fixture: the hold dependency dep1 has a manifest in RUN. -/
def holdBlockedEnv : Env :=
  {sampleEnv with bucketManifests := (fun j => if j = "dep1" then some runningManifest else none)}

/-- Fixture: job j1 is in INIT with a cancel marker present. -/
def initCancelEnv : Env :=
  {sampleEnv with bucketManifests := (fun j => if j = "j1" then some sampleManifest else none),
                  cancelMarker := (fun _ => some "")}

/-- Fixture: the Slurm backend rejects the submission with message
rejected. -/
def slurmFailEnv : Env :=
  {sampleEnv with submitResult := SlurmJobManager.submit_job "no" "rejected"}

/-- Fixture: job j1 is already DONE. -/
def doneJobEnv : Env :=
  {sampleEnv with bucketManifests := (fun j => if j = "j1" then some {sampleManifest with state := "DONE"} else none)}

/-- Fixture: job j1 is claimed by the agent named other. -/
def otherJobEnv : Env :=
  {sampleEnv with bucketManifests := (fun j => if j = "j1" then some {sampleManifest with run_system := some "other"} else none)}

/-- Fixture: job j1 is DELETING with a cancel marker, but its working
directory is gone, so the cancel path raises inside the task. -/
def cancelFailsEnv : Env :=
  {sampleEnv with bucketManifests := (fun j => if j = "j1" then some deletingManifest else none),
                  cancelMarker := (fun _ => some ""), pollJobs := [("42", "R")],
                  isDir := (fun _ => false)}

/-- Witness for C1 at the empty-content marker branch and at the
forced branch for an aware recorded time older than 60 seconds. -/
theorem cancel_marker_grace_window_witness :
    (cancel_job (markerEnv "") "j1" deletingManifest).1 =
      PyResult.ok {deletingManifest with state := JOB_STATE.DELETING} ∧
    (cancel_job (markerEnv "") "j1" deletingManifest).2.contains
      (Effect.backendCancel false) = true ∧
    (cancel_job (markerEnv "") "j1" deletingManifest).2.contains
      (Effect.backendCancel true) = false ∧
    (cancel_job (markerEnv "2001-09-08T22:30:00+00:00") "j1" deletingManifest).1 =
      PyResult.ok {deletingManifest with state := JOB_STATE.DONE} ∧
    (cancel_job (markerEnv "2001-09-08T22:30:00+00:00") "j1" deletingManifest).2.contains
      (Effect.backendCancel true) = true :=
  have h1 := (cancel_marker_grace_window (markerEnv "") "j1" deletingManifest ""
    (by decide) (by decide) rfl rfl).1 rfl
  have h2 := (cancel_marker_grace_window (markerEnv "2001-09-08T22:30:00+00:00") "j1"
    deletingManifest "2001-09-08T22:30:00+00:00"
    (by decide) (by decide) rfl rfl).2.2 (by decide) (by decide) (by decide)
  ⟨h1.1, h1.2.1, h1.2.2, h2.1, h2.2⟩

/-- Counterexample for C10 as stated: at a concrete already-submitted
DELETING job whose marker content is the sentinel dash, the grace
check raises TypeError instead of forcing the cancel - the call
returns exceptionally and no forced backend cancel is issued, so the
sentinel does not trigger the forced-cancel branch. -/
theorem sentinel_marker_no_forced_cancel :
    iso_to_datetime (markerEnv "-").parseIso (some "-") = ⟨0, false⟩ ∧
    (cancel_job (markerEnv "-") "j1" deletingManifest).1 =
      PyResult.exn "TypeError: naive and aware datetimes do not compare" ∧
    (cancel_job (markerEnv "-") "j1" deletingManifest).2.contains
      (Effect.backendCancel true) = false := by
  refine ⟨rfl, ?_, ?_⟩ <;> decide

/-- Witness for the amended C10. -/
theorem sentinel_marker_raises_typeerror_witness :
    iso_to_datetime (fun _ => (⟨77, true⟩ : PyDatetime)) (some INITIAL_TIME) = ⟨0, false⟩ ∧
    (cancel_job (markerEnv "-") "j1" deletingManifest).1 =
      PyResult.exn "TypeError: naive and aware datetimes do not compare" ∧
    putsOf (cancel_job (markerEnv "-") "j1" deletingManifest).2 = [] :=
  have h := sentinel_marker_raises_typeerror (fun _ => (⟨77, true⟩ : PyDatetime))
    (markerEnv "-") "j1" deletingManifest (by decide) (by decide) rfl rfl
  ⟨h.2.2.1, h.2.2.2.1, h.2.2.2.2.2⟩

/-- Counterexample for C2 as stated: dependency dep1 has no readable
manifest, yet the job is submitted in this very cycle (submit_job
returns True, a backend submit happens, the job reaches READY). -/
theorem missing_hold_manifest_does_not_defer :
    sampleEnv.bucketManifests (str_strip "dep1") = none ∧
    (submit_job sampleEnv "j1" holdManifest).1 = true ∧
    (submit_job sampleEnv "j1" holdManifest).2.2.any isSubmit = true ∧
    (submit_job sampleEnv "j1" holdManifest).2.1.state = JOB_STATE.READY := by
  refine ⟨rfl, ?_, ?_, ?_⟩ <;> decide

/-- Witness for the amended C2. -/
theorem unfinished_hold_defers_submission_witness :
    (submit_job holdBlockedEnv "j1" holdManifest).1 = false ∧
    (submit_job holdBlockedEnv "j1" holdManifest).2.1 = holdManifest ∧
    putsOf (submit_job holdBlockedEnv "j1" holdManifest).2.2 = [] :=
  have h := unfinished_hold_defers_submission holdBlockedEnv "j1" holdManifest "dep1"
    rfl (by decide) ⟨"dep1", by decide, runningManifest, by decide, by decide⟩
  ⟨h.1, h.2.1, h.2.2.2⟩

/-- Counterexample for C3 as stated: a RUN job whose id the backend no
longer lists is driven to DONE with the stage-out upload in the very
same stat_job call, never passing through COMPLETING. -/
theorem vanished_run_job_not_completing :
    runningManifest.state = JOB_STATE.RUN ∧
    sampleEnv.pollJobs.find? (fun j => j.1 = runningManifest.jobid) = none ∧
    (stat_job sampleEnv "j1" runningManifest).1.state = JOB_STATE.DONE ∧
    (stat_job sampleEnv "j1" runningManifest).1.state ≠ JOB_STATE.COMPLETING ∧
    (stat_job sampleEnv "j1" runningManifest).2.contains
      (Effect.uploadFile (combine_s3_path "j1" STAGEOUT_FILE)) = true := by
  refine ⟨rfl, rfl, ?_, ?_, ?_⟩ <;> decide

/-- Witness for the amended C3. -/
theorem vanished_job_done_same_poll_witness :
    (stat_job sampleEnv "j1" runningManifest).1.state = JOB_STATE.DONE ∧
    (stat_job sampleEnv "j1" runningManifest).1.time_finish = sampleEnv.nowIso :=
  have h := vanished_job_done_same_poll sampleEnv "j1" runningManifest (by decide) rfl
  ⟨h.1, h.2.1⟩

/-- Witness for C4. -/
theorem init_cancel_goes_deleted_witness :
    (∀ e ∈ (process_job initCancelEnv "j1").effects, isSubmit e = false) ∧
    putsOf (process_job initCancelEnv "j1").effects =
      [("j1", {sampleManifest with state := JOB_STATE.DELETED, time_finish := initCancelEnv.nowIso})] :=
  init_cancel_goes_deleted initCancelEnv "j1" sampleManifest
    (by decide) (by decide) rfl rfl rfl (by decide)

/-- Witness for C5. -/
theorem backend_rejection_moves_to_error_witness :
    (submit_job slurmFailEnv "j1" sampleManifest).1 = true ∧
    (submit_job slurmFailEnv "j1" sampleManifest).2.1.state = JOB_STATE.ERROR ∧
    (submit_job slurmFailEnv "j1" sampleManifest).2.1.error_msg = "rejected" ∧
    (submit_job slurmFailEnv "j1" sampleManifest).2.1.jobid = "" :=
  have h := backend_rejection_moves_to_error slurmFailEnv "j1" sampleManifest
    "no" "rejected" rfl (by decide) rfl rfl rfl rfl rfl
  ⟨h.2.1, h.2.2.1, h.2.2.2.2.1, h.2.2.2.2.2.1⟩

/-- Witness for C6. -/
theorem terminal_job_cycle_noop_witness :
    process_job doneJobEnv "j1" = ⟨[Effect.getManifest "j1"], none⟩ :=
  (terminal_job_cycle_noop doneJobEnv "j1" {sampleManifest with state := "DONE"}
    (by decide) (by decide)).1

/-- Witness for C7. -/
theorem other_agents_job_skipped_witness :
    process_job otherJobEnv "j1" = ⟨[Effect.getManifest "j1"], none⟩ :=
  (other_agents_job_skipped otherJobEnv "j1"
    {sampleManifest with run_system := some "other"} "other"
    (by decide) rfl (by decide) (by decide)).1

/-- Witness for C8. -/
theorem per_job_failure_isolated_witness :
    checknrun cancelFailsEnv (["a"] ++ "j1" :: ["b"]) =
      checknrun cancelFailsEnv ["a"] ++
        process_job cancelFailsEnv "j1" :: checknrun cancelFailsEnv ["b"] ∧
    process_job cancelFailsEnv "j1" =
      ⟨Effect.getManifest "j1" :: ([Effect.backendPoll] ++ [Effect.uploadAgentLog]),
       some "chdir: no such working directory"⟩ :=
  have h := per_job_failure_isolated cancelFailsEnv ["a"] ["b"] "j1"
  ⟨h.1, h.2.2 deletingManifest "chdir: no such working directory" [Effect.backendPoll]
    (by decide) (by decide) (by decide) rfl (by decide) (by decide)⟩

end CloudQ
